import Mathlib

/-!
Verification of the HWP planning-portal scraper (`scraper/hwp_portal_scraper.py`)
against its natural-language specification.

The development shallowly embeds the pure core of the scraper:
* the status/date normaliser (`normalise_status`, `parse_date`),
* Python dictionaries as ordered association lists (`PyDict`),
* the field-mapping logic of the two portal adapters
  (`AgilePortalScraper.scrape_application` / `_fetch_detail`,
  `EPlanningPortalScraper._parse_detail_page`),
* the orchestrator (`HWPPortalScraper.check_application` / `check_all`).

Network, browser, and HTML-parsing mechanics (requests, Playwright, BeautifulSoup)
are external collaborators: the embedding takes their outputs (the extracted row
object, the label/value dictionaries, the table rows, the page title) as inputs,
exactly at the boundary where the Python code receives them.

Python-specific conventions used throughout:
* Lean `Option String` models a Python value that is either `None` (`none`) or a
  string (`some s`).
* Python truthiness of such a value (`if v:`) is `pyTruthy`: `None` and `""` are
  falsy, every other string truthy.
* Python dictionaries are ordered association lists with unique keys
  (`PyDict`); `d[k] = v` is `dictSet`, `d.get(k)` is `getStr`,
  `d.get(k, dflt)` is `getStrD`, `k in d` is `hasField`, `d1.update(d2)` is
  `pyUpdate`, `len(d)` is `List.length`.
-/

/-- Python's `str.strip()` whitespace set, restricted to ASCII
(the inputs this program handles are ASCII). -/
def isPySpace (c : Char) : Bool :=
  c == ' ' || c == '\t' || c == '\n' || c == '\r' || c == '\x0b' || c == '\x0c'

/-- Python `s.strip()`: remove leading and trailing whitespace. -/
def pyStrip (s : String) : String :=
  ⟨((s.data.dropWhile isPySpace).reverse.dropWhile isPySpace).reverse⟩

/-- Python `s.lower()` (ASCII; the statuses this program handles are ASCII). -/
def pyLower (s : String) : String :=
  ⟨s.data.map Char.toLower⟩

/-- `listPrefixOf n h` is true iff list `n` is a prefix of list `h`. -/
def listPrefixOf : List Char → List Char → Bool
  | [], _ => true
  | _ :: _, [] => false
  | a :: as, b :: bs => a == b && listPrefixOf as bs

/-- `listInfixOf n h` is true iff `n` occurs contiguously inside `h`. -/
def listInfixOf (needle : List Char) : List Char → Bool
  | [] => needle.isEmpty
  | c :: t => listPrefixOf needle (c :: t) || listInfixOf needle t

/-- Python's substring test `needle in hay`. -/
def strContains (hay needle : String) : Bool :=
  listInfixOf needle.data hay.data

/-- Python truthiness of a `str | None` value: `None` and `""` are falsy. -/
def pyTruthy (v : Option String) : Bool :=
  match v with
  | none => false
  | some s => s != ""

/-- Python `s.replace("Z", "")`: remove every occurrence of `Z`. -/
def removeAllZ (s : String) : String :=
  ⟨s.data.filter (fun c => c != 'Z')⟩

/-- Python `s.rstrip(":")`: remove every trailing colon. -/
def rstripColon (s : String) : String :=
  ⟨(s.data.reverse.dropWhile (fun c => c == ':')).reverse⟩

/-!
## STATUS_MAP (`hwp_portal_scraper.py` lines 96-123)

The Python source writes `STATUS_MAP` as a dict literal.  Two keys occur twice
in the literal (`"new application"` on lines 100 and 112, `"refuse permission"`
on lines 107 and 121), each time with the same value; Python dict literals keep
the first occurrence's position and the last occurrence's value, so the
effective dictionary is the 22-entry ordered list below.
-/

/-- The effective `STATUS_MAP` dictionary, in its Python iteration order. -/
def STATUS_MAP : List (String × String) := [
  ("further information", "Further Information Requested"),
  ("further information requested", "Further Information Requested"),
  ("new application", "New Application"),
  ("new", "New Application"),
  ("decision made", "Decision Made"),
  ("grant", "Final Grant Issued"),
  ("grant permission", "Final Grant Issued"),
  ("grant with conditions", "Decision Made"),
  ("refuse", "Decision Made"),
  ("refuse permission", "Decision Made"),
  ("invalid", "Invalid"),
  ("withdrawn", "Invalid"),
  ("new app", "New Application"),
  ("fi requested", "Further Information Requested"),
  ("fi received", "Further Information Requested"),
  ("decided", "Decision Made"),
  ("application finalised", "Decision Made"),
  ("granted", "Final Grant Issued"),
  ("permission c", "Final Grant Issued"),
  ("permission", "Final Grant Issued"),
  ("refused", "Decision Made"),
  ("retention", "New Application")]

/-- The `for key, value in STATUS_MAP.items(): if key in cleaned: return value`
loop of `normalise_status`. -/
def lookupStatus : List (String × String) → String → Option String
  | [], _ => none
  | (k, v) :: rest, cleaned =>
    if strContains cleaned k then some v else lookupStatus rest cleaned

/-- `normalise_status` (`hwp_portal_scraper.py` lines 126-135). -/
def normalise_status (raw_status : Option String) : Option String :=
  match raw_status with
  | none => none
  | some s =>
    if s = "" then none
    else
      match lookupStatus STATUS_MAP (pyLower (pyStrip s)) with
      | some v => some v
      | none => some (pyStrip s)

/-!
## Date parsing (`hwp_portal_scraper.py` lines 138-164)

`parse_date` relies on two CPython library functions, modelled here on the
grammar this program exercises:

* `datetime.fromisoformat` (`fromiso` below) is modelled on the extended ISO
  format `YYYY-MM-DD[<sep>HH:MM[:SS[.ffffff]]]` — the common subset accepted by
  every CPython version (timezone suffixes and the 3.11+ basic formats are not
  modelled; no input of this program carries them past the `Z`-removal).
* `datetime.strptime` for the five fixed patterns is modelled after CPython's
  `_strptime` regexes: `%d` is one or two digits valued 1-31, `%m` one or two
  digits valued 1-12, `%Y` exactly four digits, `%b`/`%B` case-insensitive
  month names, a space in the pattern matches one or more whitespace
  characters, the whole string must be consumed, and the resulting
  year/month/day must form a valid calendar date (otherwise `ValueError`, i.e.
  `none`).  `strftime("%Y-%m-%d")` zero-pads (`fmtDate`).
-/

def isLeap (y : Nat) : Bool :=
  y % 4 == 0 && (y % 100 != 0 || y % 400 == 0)

def daysInMonth (y m : Nat) : Nat :=
  if m == 2 then (if isLeap y then 29 else 28)
  else if m == 4 || m == 6 || m == 9 || m == 11 then 30
  else 31

/-- `datetime.date(y, m, d)` constructor validity (raises `ValueError` otherwise). -/
def validYMD (y m d : Nat) : Bool :=
  1 ≤ y && y ≤ 9999 && 1 ≤ m && m ≤ 12 && 1 ≤ d && d ≤ daysInMonth y m

def isDigitCh (c : Char) : Bool := '0' ≤ c && c ≤ '9'

def digitVal (c : Char) : Nat := c.toNat - '0'.toNat

/-- Parse exactly `n` digits, returning their value and the rest. -/
def parseNDigits : Nat → Nat → List Char → Option (Nat × List Char)
  | 0, acc, cs => some (acc, cs)
  | _ + 1, _, [] => none
  | k + 1, acc, c :: t =>
    if isDigitCh c then parseNDigits k (acc * 10 + digitVal c) t else none

/-- CPython `_strptime` one-or-two-digit field (`%d`: lo=1 hi=31, `%m`: lo=1
hi=12): a two-digit match must lie in the range, otherwise a single nonzero
digit is consumed. -/
def parse12 (lo hi : Nat) : List Char → Option (Nat × List Char)
  | c1 :: c2 :: t =>
    if isDigitCh c1 && isDigitCh c2 then
      let v := digitVal c1 * 10 + digitVal c2
      if lo ≤ v && v ≤ hi then some (v, t)
      else if 1 ≤ digitVal c1 then some (digitVal c1, c2 :: t)
      else none
    else if isDigitCh c1 && 1 ≤ digitVal c1 then some (digitVal c1, c2 :: t)
    else none
  | [c1] => if isDigitCh c1 && 1 ≤ digitVal c1 then some (digitVal c1, []) else none
  | [] => none

def expectChar (c : Char) : List Char → Option (List Char)
  | x :: t => if x == c then some t else none
  | [] => none

/-- A literal space in a `strptime` pattern matches one or more whitespace. -/
def expectSpaces : List Char → Option (List Char)
  | c :: t => if isPySpace c then some (t.dropWhile isPySpace) else none
  | [] => none

def monthAbbrevs : List (String × Nat) :=
  [("jan", 1), ("feb", 2), ("mar", 3), ("apr", 4), ("may", 5), ("jun", 6),
   ("jul", 7), ("aug", 8), ("sep", 9), ("oct", 10), ("nov", 11), ("dec", 12)]

def monthFulls : List (String × Nat) :=
  [("january", 1), ("february", 2), ("march", 3), ("april", 4), ("may", 5),
   ("june", 6), ("july", 7), ("august", 8), ("september", 9), ("october", 10),
   ("november", 11), ("december", 12)]

/-- Case-insensitive month-name field (`%b` / `%B`). -/
def parseMonthName (names : List (String × Nat)) (cs : List Char) :
    Option (Nat × List Char) :=
  names.findSome? fun nm =>
    if listPrefixOf nm.1.data (cs.map Char.toLower) then
      some (nm.2, cs.drop nm.1.data.length)
    else none

/-- `%d %b %Y` — e.g. `11 Feb 2026`. -/
def fmt_dbY (cs : List Char) : Option (Nat × Nat × Nat) := do
  let (d, cs) ← parse12 1 31 cs
  let cs ← expectSpaces cs
  let (m, cs) ← parseMonthName monthAbbrevs cs
  let cs ← expectSpaces cs
  let (y, cs) ← parseNDigits 4 0 cs
  if cs = [] && validYMD y m d then some (y, m, d) else none

/-- `%d/%m/%Y` — e.g. `11/02/2026`. -/
def fmt_dmY (cs : List Char) : Option (Nat × Nat × Nat) := do
  let (d, cs) ← parse12 1 31 cs
  let cs ← expectChar '/' cs
  let (m, cs) ← parse12 1 12 cs
  let cs ← expectChar '/' cs
  let (y, cs) ← parseNDigits 4 0 cs
  if cs = [] && validYMD y m d then some (y, m, d) else none

/-- `%Y-%m-%d` — e.g. `2026-02-11`. -/
def fmt_Ymd (cs : List Char) : Option (Nat × Nat × Nat) := do
  let (y, cs) ← parseNDigits 4 0 cs
  let cs ← expectChar '-' cs
  let (m, cs) ← parse12 1 12 cs
  let cs ← expectChar '-' cs
  let (d, cs) ← parse12 1 31 cs
  if cs = [] && validYMD y m d then some (y, m, d) else none

/-- `%d %B %Y` — e.g. `11 February 2026`. -/
def fmt_dBY (cs : List Char) : Option (Nat × Nat × Nat) := do
  let (d, cs) ← parse12 1 31 cs
  let cs ← expectSpaces cs
  let (m, cs) ← parseMonthName monthFulls cs
  let cs ← expectSpaces cs
  let (y, cs) ← parseNDigits 4 0 cs
  if cs = [] && validYMD y m d then some (y, m, d) else none

/-- `%d-%m-%Y` — e.g. `11-02-2026`. -/
def fmt_dmY2 (cs : List Char) : Option (Nat × Nat × Nat) := do
  let (d, cs) ← parse12 1 31 cs
  let cs ← expectChar '-' cs
  let (m, cs) ← parse12 1 12 cs
  let cs ← expectChar '-' cs
  let (y, cs) ← parseNDigits 4 0 cs
  if cs = [] && validYMD y m d then some (y, m, d) else none

/-- The optional time part of `datetime.fromisoformat`:
`HH:MM[:SS[.ffffff]]`, consuming the whole remainder. -/
def isoTimeOK (cs : List Char) : Bool :=
  match parseNDigits 2 0 cs with
  | none => false
  | some (h, cs) =>
    match expectChar ':' cs with
    | none => false
    | some cs =>
      match parseNDigits 2 0 cs with
      | none => false
      | some (mi, cs) =>
        let secPart : Option (Nat × List Char) :=
          match cs with
          | ':' :: t =>
            match parseNDigits 2 0 t with
            | none => none
            | some (sec, t) =>
              match t with
              | '.' :: f =>
                let ds := f.takeWhile isDigitCh
                if 1 ≤ ds.length && ds.length ≤ 6 then
                  some (sec, f.dropWhile isDigitCh)
                else none
              | t => some (sec, t)
          | t => some (0, t)
        match secPart with
        | none => false
        | some (sec, rest) =>
          rest = [] && h ≤ 23 && mi ≤ 59 && sec ≤ 59

/-- Model of `datetime.fromisoformat` (see the section comment above). -/
def fromiso (s : String) : Option (Nat × Nat × Nat) := do
  let (y, cs) ← parseNDigits 4 0 s.data
  let cs ← expectChar '-' cs
  let (m, cs) ← parseNDigits 2 0 cs
  let cs ← expectChar '-' cs
  let (d, cs) ← parseNDigits 2 0 cs
  let timeOK :=
    match cs with
    | [] => true
    | _sep :: rest => isoTimeOK rest
  if timeOK && validYMD y m d then some (y, m, d) else none

/-- `strftime("%Y-%m-%d")`: zero-padded ISO date. -/
def padNum (n width : Nat) : List Char :=
  let ds := Nat.toDigits 10 n
  List.replicate (width - ds.length) '0' ++ ds

def fmtDate (ymd : Nat × Nat × Nat) : String :=
  ⟨padNum ymd.1 4 ++ '-' :: (padNum ymd.2.1 2 ++ '-' :: padNum ymd.2.2 2)⟩

/-- The five fixed patterns of `parse_date`, in source order. -/
def formatsList : List (List Char → Option (Nat × Nat × Nat)) :=
  [fmt_dbY, fmt_dmY, fmt_Ymd, fmt_dBY, fmt_dmY2]

/-- The `for fmt in formats: try ... except ValueError: continue` loop. -/
def tryFormats : List (List Char → Option (Nat × Nat × Nat)) → List Char →
    Option (Nat × Nat × Nat)
  | [], _ => none
  | f :: fs, cs =>
    match f cs with
    | some r => some r
    | none => tryFormats fs cs

/-- `parse_date` (`hwp_portal_scraper.py` lines 138-164). -/
def parse_date (date_str : Option String) : Option String :=
  match date_str with
  | none => none
  | some s =>
    if s = "" ∨ pyStrip s = "" ∨ pyStrip s = "-" ∨ pyStrip s = "N/A" ∨
        pyStrip s = "None" then none
    else
      let t := pyStrip s
      if strContains t "T" then
        match fromiso (removeAllZ t) with
        | some ymd => some (fmtDate ymd)
        | none => (tryFormats formatsList t.data).map fmtDate
      else (tryFormats formatsList t.data).map fmtDate


/-!
## Python dictionaries

All dictionaries this program builds start from a literal with distinct keys
and are then only modified through item assignment, so they always have
pairwise-distinct keys; `dictSet` therefore updates the first (only)
occurrence in place, like Python's `d[k] = v`, or appends a new entry.
-/

/-- A Python dict whose values are `str | None`. -/
abbrev PyDict := List (String × Option String)

/-- `d[k] = v`. -/
def dictSet : PyDict → String → Option String → PyDict
  | [], k, v => [(k, v)]
  | kv :: rest, k, v =>
    if kv.1 = k then (k, v) :: rest else kv :: dictSet rest k v

/-- The entry stored under `k`, if the key is present at all
(`some none` = key present holding Python `None`). -/
def getEntry : PyDict → String → Option (Option String)
  | [], _ => none
  | kv :: rest, k => if kv.1 = k then some kv.2 else getEntry rest k

/-- `d.get(k)`: a missing key and a stored `None` both give Python `None`. -/
def getStr (d : PyDict) (k : String) : Option String :=
  (getEntry d k).getD none

/-- `d.get(k, dflt)` with a string default. -/
def getStrD (d : PyDict) (k : String) (dflt : String) : Option String :=
  (getEntry d k).getD (some dflt)

/-- `k in d`. -/
def hasField (d : PyDict) (k : String) : Bool :=
  (getEntry d k).isSome

/-- `d.update(u)`: assign every entry of `u` into `d`, in `u`'s order. -/
def pyUpdate (d u : PyDict) : PyDict :=
  u.foldl (fun a kv => dictSet a kv.1 kv.2) d

/-- The keys of a dict. -/
def dictKeys (d : PyDict) : List String := d.map (·.1)

theorem getEntry_dictSet (d : PyDict) (k : String) (v : Option String)
    (k' : String) :
    getEntry (dictSet d k v) k' = if k' = k then some v else getEntry d k' := by
  induction d with
  | nil =>
    by_cases h : k' = k
    · simp [dictSet, getEntry, h]
    · simp [dictSet, getEntry, h, Ne.symm h]
  | cons kv rest ih =>
    by_cases hk : kv.1 = k
    · by_cases h : k' = k
      · simp [dictSet, getEntry, hk, h]
      · simp [dictSet, getEntry, hk, h, Ne.symm h]
    · by_cases h : k' = k
      · subst h
        simp [dictSet, getEntry, hk, ih]
      · simp [dictSet, getEntry, hk, h, ih]

theorem getStr_dictSet (d : PyDict) (k : String) (v : Option String)
    (k' : String) :
    getStr (dictSet d k v) k' = if k' = k then v else getStr d k' := by
  rw [getStr, getEntry_dictSet]
  by_cases h : k' = k <;> simp [h, getStr]

theorem dictSet_ne_nil (d : PyDict) (k : String) (v : Option String) :
    dictSet d k v ≠ [] := by
  cases d with
  | nil => simp [dictSet]
  | cons kv rest =>
    rw [dictSet]
    split <;> simp

theorem pyUpdate_ne_nil (d u : PyDict) (hd : d ≠ []) : pyUpdate d u ≠ [] := by
  induction u generalizing d with
  | nil => simpa [pyUpdate] using hd
  | cons kv rest ih =>
    rw [pyUpdate, List.foldl_cons]
    exact ih (dictSet d kv.1 kv.2) (dictSet_ne_nil d kv.1 kv.2)

theorem getEntry_eq_none_of_not_mem (d : PyDict) (k : String)
    (h : k ∉ dictKeys d) : getEntry d k = none := by
  induction d with
  | nil => rfl
  | cons kv rest ih =>
    rw [dictKeys, List.map_cons, List.mem_cons] at h
    push_neg at h
    rw [getEntry, if_neg (fun hh => h.1 hh.symm)]
    exact ih (by simpa [dictKeys] using h.2)

theorem mem_dictKeys_dictSet (d : PyDict) (k : String) (v : Option String)
    (k' : String) :
    k' ∈ dictKeys (dictSet d k v) ↔ (k' = k ∨ k' ∈ dictKeys d) := by
  induction d with
  | nil => simp [dictSet, dictKeys]
  | cons kv rest ih =>
    rw [dictSet]
    by_cases hk : kv.1 = k
    · rw [if_pos hk]
      simp only [dictKeys, List.map_cons, List.mem_cons] at *
      rw [hk]
      tauto
    · rw [if_neg hk]
      simp only [dictKeys, List.map_cons, List.mem_cons] at *
      rw [ih]
      tauto

theorem nodup_dictKeys_dictSet (d : PyDict) (k : String) (v : Option String)
    (h : (dictKeys d).Nodup) : (dictKeys (dictSet d k v)).Nodup := by
  induction d with
  | nil => simp [dictSet, dictKeys]
  | cons kv rest ih =>
    rw [dictKeys, List.map_cons, List.nodup_cons] at h
    rw [dictSet]
    by_cases hk : kv.1 = k
    · rw [if_pos hk]
      rw [dictKeys, List.map_cons, List.nodup_cons]
      exact ⟨by simpa [dictKeys, hk] using h.1, h.2⟩
    · rw [if_neg hk]
      rw [dictKeys, List.map_cons, List.nodup_cons]
      refine ⟨?_, ih h.2⟩
      intro hmem
      rcases (mem_dictKeys_dictSet rest k v kv.1).mp hmem with h1 | h2
      · exact hk h1
      · exact h.1 h2

/-- After `d.update(u)` (with `u` a dict, i.e. distinct keys), a key's entry is
`u`'s entry when `u` has the key, and `d`'s otherwise. -/
theorem getEntry_pyUpdate (d u : PyDict) (k : String)
    (hu : (dictKeys u).Nodup) :
    getEntry (pyUpdate d u) k = (getEntry u k).orElse (fun _ => getEntry d k) := by
  induction u generalizing d with
  | nil => simp [pyUpdate, getEntry, Option.orElse]
  | cons kv rest ih =>
    rw [dictKeys, List.map_cons, List.nodup_cons] at hu
    have step : getEntry (pyUpdate d (kv :: rest)) k =
        getEntry (pyUpdate (dictSet d kv.1 kv.2) rest) k := by
      rw [pyUpdate, List.foldl_cons]; rfl
    rw [step, ih _ hu.2, getEntry_dictSet, getEntry]
    by_cases h : kv.1 = k
    · rw [if_pos h, getEntry_eq_none_of_not_mem rest k (h ▸ hu.1),
        if_pos h.symm]
      simp [Option.orElse]
    · rw [if_neg h, if_neg (fun hh => h hh.symm)]

/-!
## Agile (SPA) adapter — `AgilePortalScraper` (`hwp_portal_scraper.py` lines 184-341)

Browser navigation and the in-page JavaScript extraction are external
collaborators.  `scrape_application` is embedded from the point where the
Angular row object (`row_data`, a JSON dict) has been extracted — `none`
models every load/render/extraction failure path that Python collapses to
`None` before the reference check.  `_fetch_detail` is embedded from the point
where the label→value dictionary (`detail_data`) has been extracted from the
detail page's form; an empty list models both an empty extraction and a failed
detail-page load (Python `{}`, which is falsy, so no merge happens).
-/

/-- Python `str(x)` for a `str | None` value (used in the detail-URL f-string). -/
def pyShow (v : Option String) : String :=
  match v with
  | none => "None"
  | some s => s

/-- One iteration of the `for key, value in detail_data.items()` loop of
`AgilePortalScraper._fetch_detail` (lines 317-334). -/
def mapDetailStep (acc : PyDict) (kv : String × String) : PyDict :=
  let key_lower := pyLower kv.1
  let value := kv.2
  if strContains key_lower "submissions" || strContains key_lower "observations" then
    dictSet acc "subDue" (parse_date (some value))
  else if strContains key_lower "decision due" then
    dictSet acc "decDue" (parse_date (some value))
  else if strContains key_lower "final grant" then
    -- `if not result.get("grantDate"):` — guard on the LOCAL detail dict
    if pyTruthy (getStr acc "grantDate") then acc
    else dictSet acc "grantDate" (parse_date (some value))
  else if key_lower = "status" then
    if value != "" && value != "$ctrl.model" then
      dictSet (dictSet acc "status" (normalise_status (some value))) "raw_status"
        (some value)
    else acc
  else if strContains key_lower "applicant" && value != "" then
    dictSet acc "client" (some value)
  else if strContains key_lower "eircode" && value != "" then
    dictSet acc "eircode" (some value)
  else acc

/-- The field-mapping loop of `_fetch_detail`: builds the detail dict from the
extracted label→value pairs. -/
def mapDetail (detail_data : List (String × String)) : PyDict :=
  detail_data.foldl mapDetailStep []

/-- `AgilePortalScraper.scrape_application` (lines 197-267), from the point the
Angular row object has been extracted.  `row_data = none` covers the
load/render/extraction failures and the "no results" path. -/
def agile_scrape (base_url ref : String) (row_data : Option PyDict)
    (detail_data : List (String × String)) : Option PyDict :=
  match row_data with
  | none => none
  | some rd =>
    -- `if not row_data or "error" in row_data: return None`
    if rd = [] then none
    else if hasField rd "error" then none
    -- `if row_data.get("reference") != ref: return None`
    else if getStr rd "reference" ≠ some ref then none
    else
      let result : PyDict := [
        ("ref", getStrD rd "reference" ref),
        ("status", normalise_status (getStr rd "status")),
        ("raw_status", getStr rd "status"),
        ("client", getStrD rd "applicantSurname" ""),
        ("agent", getStrD rd "agentName" ""),
        ("proposal", getStrD rd "proposal" ""),
        ("location", getStrD rd "location" ""),
        ("regDate", parse_date (getStr rd "registrationDate")),
        ("decDate", parse_date (getStr rd "decisionDate")),
        ("grantDate", parse_date (getStr rd "finalGrantDate")),
        ("decisionOutcome", getStrD rd "decisionText" ""),
        ("agile_id", getStr rd "id"),
        ("detail_url",
          some (base_url ++ "/application-details/" ++ pyShow (getStr rd "id")))]
      -- `if row_data.get("id"): detail = self._fetch_detail(...); if detail: result.update(detail)`
      if pyTruthy (getStr rd "id") then
        let detail := mapDetail detail_data
        if detail ≠ [] then some (pyUpdate result detail) else some result
      else some result

/-!
## ePlanning (server-rendered) adapter — `EPlanningPortalScraper`
(`hwp_portal_scraper.py` lines 359-449)

HTTP and BeautifulSoup are external collaborators.  `_parse_detail_page` is
embedded from the soup boundary: `html` is the raw response text, `title`
models `soup.title` (`none` = no title element; `some none` = a title whose
`.string` is `None`; `some (some t)` = title text `t`), and `rows` is the list
of `(cells[0].get_text(strip=True), cells[1].get_text(strip=True))` pairs of
every two-cell table row, in document order.

The Python error-page check on line 404,

  `if "no results found" in html.lower() or "error" in soup.title.string.lower() if soup.title else False:`

parses, by Python's conditional-expression precedence, as
`(A or B) if soup.title else False` — so when the page has NO title element the
"no results found" marker is never checked, and when it has a title whose
`.string` is `None` and the marker is absent, `.lower()` raises
`AttributeError` (modelled as `Except.error`, caught by `scrape_application`).
-/

/-- One iteration of the `for row in soup.find_all("tr")` loop
(lines 408-447), for a two-cell row. -/
def eplanRowStep (acc : PyDict) (cells : String × String) : PyDict :=
  let label := rstripColon (pyLower cells.1)
  let value := cells.2
  if value = "" || value = "-" then acc
  else if strContains label "file number" then dictSet acc "ref" (some value)
  else if strContains label "planning status" then
    dictSet (dictSet acc "status" (normalise_status (some value))) "raw_status"
      (some value)
  else if strContains label "decision due" then
    dictSet acc "decDue" (parse_date (some value))
  -- source line 425 tests `label == "decision date" or label == "decision date"`,
  -- a duplicated (no-op) disjunct
  else if label = "decision date" ∨ label = "decision date" then
    dictSet acc "decDate" (parse_date (some value))
  else if strContains label "decision type" then
    dictSet acc "decisionOutcome" (some value)
  else if strContains label "received date" then
    dictSet acc "regDate" (parse_date (some value))
  else if strContains label "applicant name" then dictSet acc "client" (some value)
  else if strContains label "development address" then
    dictSet acc "location" (some value)
  else if strContains label "development description" then
    dictSet acc "proposal" (some value)
  else if strContains label "grant date" then
    dictSet acc "grantDate" (parse_date (some value))
  else if strContains label "submissions by" then
    dictSet acc "subDue" (parse_date (some value))
  else if strContains label "further info requested" && value != "" then
    let acc1 := dictSet acc "fi_requested" (parse_date (some value))
    -- `if result.get("status") == "New Application" and parse_date(value):`
    if getStr acc1 "status" == some "New Application" &&
        pyTruthy (parse_date (some value)) then
      dictSet acc1 "status" (some "Further Information Requested")
    else acc1
  else if strContains label "further info received" && value != "" then
    dictSet acc "fi_received" (parse_date (some value))
  else acc

/-- `EPlanningPortalScraper._parse_detail_page` (lines 388-449).
`Except.error ()` models the `AttributeError` escaping the function. -/
def parse_detail_page (html : String) (title : Option (Option String))
    (rows : List (String × String)) (ref : String) :
    Except Unit (Option PyDict) :=
  let body : Option PyDict :=
    let result := rows.foldl eplanRowStep [("ref", some ref)]
    if result.length > 1 then some result else none
  match title with
  | none => Except.ok body
  | some ts =>
    if strContains (pyLower html) "no results found" then Except.ok none
    else
      match ts with
      | none => Except.error ()
      | some t =>
        if strContains (pyLower t) "error" then Except.ok none
        else Except.ok body

/-- `EPlanningPortalScraper.scrape_application` (lines 371-386) from the point
the page text has been fetched: the surrounding `try/except` turns any
exception from the parse into `None`. -/
def eplanning_scrape (html : String) (title : Option (Option String))
    (rows : List (String × String)) (ref : String) : Option PyDict :=
  match parse_detail_page html title rows ref with
  | Except.ok r => r
  | Except.error _ => none

/-!
## Orchestrator — `HWPPortalScraper` (`hwp_portal_scraper.py` lines 456-586)

`check_application` is embedded over an abstract scrape capability
`scrape : PortalConfig → Option String → Option PyDict`, standing for
`self._get_scraper(cfg).scrape_application(ref)`: it returns `none` both when
the scraper cannot be built (missing dependency) and when the adapter returns
`None`, exactly the two cases Python treats identically by falling through.
The truthiness test `if result:` also treats an empty dict as a failure, so
`tryPortal` checks emptiness explicitly (the two adapters never return an
empty dict — proved in the C2 theorem).
-/

/-- A portal configuration (the fields the orchestrator reads). -/
structure PortalConfig where
  ptype : String
  base_url : String
deriving DecidableEq

/-- A `PORTAL_REGISTRY` entry: primary and optional fallback portal. -/
structure RegEntry where
  primary : Option PortalConfig
  fallback : Option PortalConfig
deriving DecidableEq

/-- `result["source"] = cfg["base_url"]; result["portal_type"] = cfg["type"]`. -/
def tagResult (r : PyDict) (pc : PortalConfig) : PyDict :=
  dictSet (dictSet r "source" (some pc.base_url)) "portal_type" (some pc.ptype)

/-- One `scraper = self._get_scraper(cfg); if scraper: result = ...; if result:`
block of `check_application` (lines 509-516 / 521-528). -/
def tryPortal (scrape : PortalConfig → Option String → Option PyDict)
    (pc : PortalConfig) (ref : Option String) : Option PyDict :=
  match scrape pc ref with
  | some r => if r = [] then none else some (tagResult r pc)
  | none => none

/-- `HWPPortalScraper.check_application` (lines 496-530). -/
def check_application (scrape : PortalConfig → Option String → Option PyDict)
    (registry : List (String × RegEntry)) (auth ref : Option String) :
    Option PyDict :=
  let entry? : Option RegEntry :=
    match auth with
    | some a => (registry.find? (fun kv => kv.1 == a)).map (·.2)
    | none => none
  match entry? with
  | none => none
  | some entry =>
    let viaFallback : Option PyDict :=
      match entry.fallback with
      | some f => tryPortal scrape f ref
      | none => none
    match entry.primary with
    | some p =>
      match tryPortal scrape p ref with
      | some r => some r
      | none => viaFallback
    | none => viaFallback

/-- The per-field change test of `check_all`:
`if new_val and new_val != old_val:` (lines 564 and 574). -/
def changedCond (newV oldV : Option String) : Bool :=
  pyTruthy newV && newV != oldV

/-- A `_changes` dict: field name ↦ (old value, new value). -/
abbrev ChangeDict := List (String × Option String × Option String)

/-- The `changes["status"]` block of `check_all` (lines 563-568). -/
def chgStatus (app pd : PyDict) : ChangeDict :=
  let cur := getStrD app "status" ""
  let ns := getStr pd "status"
  if changedCond ns cur then [("status", cur, ns)] else []

/-- One iteration of the `for field in [...]` loop of `check_all`
(lines 571-575). -/
def chgField (app pd : PyDict) (f : String) : ChangeDict :=
  let old := getStr app f
  let nw := getStr pd f
  if changedCond nw old then [(f, old, nw)] else []

/-- The full change computation of `check_all` (lines 562-575). -/
def computeChanges (app pd : PyDict) : ChangeDict :=
  chgStatus app pd ++ chgField app pd "decDue" ++ chgField app pd "decDate" ++
    chgField app pd "grantDate" ++ chgField app pd "client" ++
    chgField app pd "decisionOutcome" ++ chgField app pd "subDue"

/-- One element of the result list of `check_all`.  The Python result is the
dict `{**app, ...}`; the extra keys are modelled as fields (`changes`,
`hasChanges`, `portalData` and `source` are `none` when the corresponding key
is absent, i.e. on the `failed` path). -/
structure Outcome where
  base : PyDict
  scrapeStatus : String
  errMsg : Option String
  portalData : Option PyDict
  changes : Option ChangeDict
  hasChanges : Option Bool
  source : Option (Option String)
deriving DecidableEq

/-- The body of the `for app in applications` loop of `check_all`
(lines 544-584). -/
def checkOne (scrape : PortalConfig → Option String → Option PyDict)
    (registry : List (String × RegEntry)) (app : PyDict) : Outcome :=
  let auth := getStrD app "auth" ""
  let ref := getStrD app "ref" ""
  match check_application scrape registry auth ref with
  | none =>
    { base := app, scrapeStatus := "failed",
      errMsg := some "Could not fetch from any portal",
      portalData := none, changes := none, hasChanges := none, source := none }
  | some pd =>
    let ch := computeChanges app pd
    { base := app, scrapeStatus := "success", errMsg := none,
      portalData := some pd, changes := some ch,
      hasChanges := some (decide (0 < ch.length)),
      source := some (getStrD pd "source" "") }

/-- `HWPPortalScraper.check_all` (lines 532-586). -/
def check_all (scrape : PortalConfig → Option String → Option PyDict)
    (registry : List (String × RegEntry)) (apps : List PyDict) : List Outcome :=
  apps.map (checkOne scrape registry)

/-!
## Spec-side definitions (for refinement claims)

These definitions follow the SPEC's/claims' wording, to be compared with the
source-side definitions above.
-/

/-- The spec's description of `normalize_status`: null for empty/null input;
otherwise lower-case and trim, return the canonical value of the first entry
of the ordered substring table whose key occurs in the cleaned string; if no
key matches, the trimmed original in its original case. -/
def normalise_status_spec (raw : Option String) : Option String :=
  match raw with
  | none => none
  | some s =>
    if s = "" then none
    else
      match STATUS_MAP.find? (fun kv => strContains (pyLower (pyStrip s)) kv.1) with
      | some kv => some kv.2
      | none => some (pyStrip s)

/-- "strips a trailing 'Z'" — the claim's wording: remove one trailing `Z`. -/
def stripTrailingZ (s : String) : String :=
  match s.data.reverse with
  | 'Z' :: t => ⟨t.reverse⟩
  | _ => s

/-- The claim C4's description of `parse_date`, AS STATED: null for
null/empty/placeholder; for a string containing `T`, strip a trailing `Z` and
take the date component of a successful ISO parse; otherwise the five patterns
in order, first success formatted `YYYY-MM-DD`, else null. -/
def parse_date_stated (date_str : Option String) : Option String :=
  match date_str with
  | none => none
  | some s =>
    if s = "" ∨ pyStrip s ∈ ["", "-", "N/A", "None"] then none
    else
      let t := pyStrip s
      let iso : Option (Nat × Nat × Nat) :=
        if strContains t "T" then fromiso (stripTrailingZ t) else none
      match iso with
      | some ymd => some (fmtDate ymd)
      | none => (formatsList.findSome? (fun f => f t.data)).map fmtDate

/-- The claim C4 as AMENDED: identical, except that every occurrence of `Z` is
removed before the ISO parse (Python `replace("Z", "")`), not only a trailing
one. -/
def parse_date_amended (date_str : Option String) : Option String :=
  match date_str with
  | none => none
  | some s =>
    if s = "" ∨ pyStrip s ∈ ["", "-", "N/A", "None"] then none
    else
      let t := pyStrip s
      let iso : Option (Nat × Nat × Nat) :=
        if strContains t "T" then fromiso (removeAllZ t) else none
      match iso with
      | some ymd => some (fmtDate ymd)
      | none => (formatsList.findSome? (fun f => f t.data)).map fmtDate

theorem lookupStatus_eq_find (l : List (String × String)) (c : String) :
    lookupStatus l c = (l.find? (fun kv => strContains c kv.1)).map (·.2) := by
  induction l with
  | nil => rfl
  | cons kv rest ih =>
    rw [show (kv :: rest) = ((kv.1, kv.2) :: rest) from rfl, lookupStatus,
      List.find?_cons]
    cases h : strContains c kv.1 with
    | true => simp [h]
    | false => simp [h, ih]

theorem tryFormats_eq_findSome (fs : List (List Char → Option (Nat × Nat × Nat)))
    (cs : List Char) : tryFormats fs cs = fs.findSome? (fun f => f cs) := by
  induction fs with
  | nil => rfl
  | cons f rest ih =>
    rw [tryFormats, List.findSome?_cons]
    cases f cs <;> simp [ih]

/-- C3: `normalize_status` behaves exactly as the spec describes — null for
empty/null input, first-match lookup of the ordered substring table over the
trimmed lower-cased input, verbatim trimmed pass-through otherwise — including
the spec's three concrete examples. -/
theorem C3_normalise_status_as_specified :
    (∀ r : Option String, normalise_status r = normalise_status_spec r) ∧
    normalise_status (some "FURTHER INFORMATION REQUESTED") =
      some "Further Information Requested" ∧
    normalise_status (some "") = none ∧
    normalise_status none = none ∧
    normalise_status (some "Some Unmapped Status") = some "Some Unmapped Status" := by
  refine ⟨?_, by decide, by decide, rfl, by decide⟩
  intro r
  cases r with
  | none => rfl
  | some s =>
    by_cases hs : s = ""
    · simp [normalise_status, normalise_status_spec, hs]
    · simp only [normalise_status, normalise_status_spec, if_neg hs,
        lookupStatus_eq_find]
      cases STATUS_MAP.find? (fun kv => strContains (pyLower (pyStrip s)) kv.1) <;>
        simp

/-- C4 (amended): `parse_date` behaves exactly as the claim describes once
"strips a trailing 'Z'" is amended to "removes every occurrence of 'Z'"
(Python `replace("Z", "")`), including the spec's four concrete examples. -/
theorem C4_parse_date_as_amended :
    (∀ r : Option String, parse_date r = parse_date_amended r) ∧
    parse_date (some "2025-12-15T00:00:00") = some "2025-12-15" ∧
    parse_date (some "11 Feb 2026") = some "2026-02-11" ∧
    parse_date (some "-") = none ∧
    parse_date none = none ∧
    parse_date (some "garbage") = none := by
  refine ⟨?_, by decide, by decide, by decide, rfl, by decide⟩
  intro r
  cases r with
  | none => rfl
  | some s =>
    have hcond : (s = "" ∨ pyStrip s = "" ∨ pyStrip s = "-" ∨ pyStrip s = "N/A" ∨
        pyStrip s = "None") ↔
        (s = "" ∨ pyStrip s ∈ (["", "-", "N/A", "None"] : List String)) := by
      simp
    simp only [parse_date, parse_date_amended]
    by_cases h : s = "" ∨ pyStrip s = "" ∨ pyStrip s = "-" ∨ pyStrip s = "N/A" ∨
        pyStrip s = "None"
    · rw [if_pos h, if_pos (hcond.mp h)]
    · rw [if_neg h, if_neg (fun hh => h (hcond.mpr hh))]
      by_cases ht : strContains (pyStrip s) "T"
      · rw [if_pos ht]
        cases fromiso (removeAllZ (pyStrip s)) <;>
          simp [tryFormats_eq_findSome, ht]
      · rw [if_neg ht]
        simp [tryFormats_eq_findSome, ht]

/-- C4 counterexample: the claim AS STATED ("strips a trailing 'Z'") is false
of the code: on `"2025-12-15TZ00:00:00"` (a non-trailing `Z`) the code removes
every `Z` and parses successfully, while the behaviour described by the claim
would fail the ISO parse and return null. -/
theorem C4_counterexample :
    parse_date (some "2025-12-15TZ00:00:00") = some "2025-12-15" ∧
    parse_date_stated (some "2025-12-15TZ00:00:00") = none := by decide

/-- All ordered pairs of `STATUS_MAP` keys where the first key is a proper
substring of the second and the two keys map to different canonical values. -/
def statusSubstrConflicts : List (String × String) :=
  STATUS_MAP.flatMap (fun a =>
    STATUS_MAP.filterMap (fun b =>
      if a.1 != b.1 && strContains b.1 a.1 && a.2 != b.2 then some (a.1, b.1)
      else none))

/-- C7 counterexample: the shipped `STATUS_MAP` DOES contain two keys where
one is a substring of the other with different canonical values:
`"grant"` ↦ Final Grant Issued is a substring of `"grant with conditions"` ↦
Decision Made. -/
theorem C7_counterexample :
    ("grant", "Final Grant Issued") ∈ STATUS_MAP ∧
    ("grant with conditions", "Decision Made") ∈ STATUS_MAP ∧
    strContains "grant with conditions" "grant" = true ∧
    ("grant" : String) ≠ "grant with conditions" ∧
    ("Final Grant Issued" : String) ≠ "Decision Made" := by decide

/-- C7 (amended): the shipped table has exactly two substring-conflicting key
pairs — (`grant` ⊂ `grant with conditions`) and (`permission` ⊂
`refuse permission`), each Final Grant Issued vs Decision Made — so
first-match-wins iteration order IS load-bearing for the table as shipped:
`normalise_status` maps `"grant with conditions"` to `"Final Grant Issued"`,
not to the table's own value `"Decision Made"` for that key. -/
theorem C7_amended_exactly_two_conflicts :
    statusSubstrConflicts =
      [("grant", "grant with conditions"), ("permission", "refuse permission")] ∧
    normalise_status (some "grant with conditions") = some "Final Grant Issued" ∧
    ("grant with conditions", "Decision Made") ∈ STATUS_MAP := by decide

/-- C10: a non-empty all-whitespace input falls through the null-for-empty
rule and every substring rule, and `normalise_status` returns the trimmed
pass-through, the empty string (not null). -/
theorem C10_whitespace_only_pass_through (s : String) (h0 : s ≠ "")
    (hw : ∀ c ∈ s.data, isPySpace c = true) :
    normalise_status (some s) = some "" := by
  have hstrip : pyStrip s = "" := by
    unfold pyStrip
    rw [List.dropWhile_eq_nil_iff.mpr hw]
    rfl
  simp only [normalise_status, if_neg h0, hstrip]
  rfl

theorem C10_witness :
    (" \t " : String) ≠ "" ∧ normalise_status (some " \t ") = some "" :=
  ⟨by decide, C10_whitespace_only_pass_through " \t " (by decide) (by decide)⟩

/-- C8: if the extracted Angular row's `reference` field is not exactly the
requested reference (including the case where it is absent), the SPA adapter's
`scrape_application` returns null — never a partial success. -/
theorem C8_reference_mismatch_returns_null (base_url ref : String) (rd : PyDict)
    (detail_data : List (String × String))
    (h : getStr rd "reference" ≠ some ref) :
    agile_scrape base_url ref (some rd) detail_data = none := by
  simp only [agile_scrape]
  by_cases h1 : rd = []
  · rw [if_pos h1]
  · rw [if_neg h1]
    by_cases h2 : hasField rd "error"
    · rw [if_pos h2]
    · rw [if_neg h2, if_pos h]

theorem C8_witness :
    getStr [("reference", some "25/0001")] "reference" ≠ some "25/6796" ∧
    agile_scrape "https://planning.agileapplications.ie/corkcoco" "25/6796"
      (some [("reference", some "25/0001")]) [] = none :=
  ⟨by decide,
    C8_reference_mismatch_returns_null _ _ _ _ (by decide)⟩

theorem nodup_dictKeys_mapDetailStep (acc : PyDict) (kv : String × String)
    (h : (dictKeys acc).Nodup) : (dictKeys (mapDetailStep acc kv)).Nodup := by
  simp only [mapDetailStep]
  split_ifs <;>
    first
      | exact h
      | exact nodup_dictKeys_dictSet _ _ _ h
      | exact nodup_dictKeys_dictSet _ _ _ (nodup_dictKeys_dictSet _ _ _ h)

theorem nodup_dictKeys_foldl_mapDetailStep (dd : List (String × String))
    (acc : PyDict) (h : (dictKeys acc).Nodup) :
    (dictKeys (dd.foldl mapDetailStep acc)).Nodup := by
  induction dd generalizing acc with
  | nil => simpa using h
  | cons kv rest ih =>
    rw [List.foldl_cons]
    exact ih _ (nodup_dictKeys_mapDetailStep acc kv h)

theorem nodup_dictKeys_mapDetail (dd : List (String × String)) :
    (dictKeys (mapDetail dd)).Nodup :=
  nodup_dictKeys_foldl_mapDetailStep dd [] (by simp [dictKeys])

/-- One detail-page mapping step never changes an already-truthy grant date
(the `if not result.get("grantDate")` guard of `_fetch_detail`). -/
theorem mapDetailStep_preserves_truthy_grantDate (acc : PyDict)
    (kv : String × String) (h : pyTruthy (getStr acc "grantDate") = true) :
    getStr (mapDetailStep acc kv) "grantDate" = getStr acc "grantDate" := by
  simp only [mapDetailStep]
  split_ifs <;> simp_all +decide [getStr_dictSet]

/-- C5 (amended): in the SPA adapter's merge, detail-page values win for EVERY
field the detail-page mapping produced — including grant date; the grant-date
"first-write-wins" rule lives inside the detail-page mapping itself: once the
detail dict holds a truthy grant date, later detail rows cannot change it. -/
theorem C5_detail_overwrites_search_fields
    (search : PyDict) (dd : List (String × String)) (k : String)
    (hk : hasField (mapDetail dd) k = true)
    (dd2 : List (String × String)) (acc : PyDict)
    (hg : pyTruthy (getStr acc "grantDate") = true) :
    getEntry (pyUpdate search (mapDetail dd)) k = getEntry (mapDetail dd) k ∧
    getStr (dd2.foldl mapDetailStep acc) "grantDate" = getStr acc "grantDate" := by
  constructor
  · rw [getEntry_pyUpdate _ _ _ (nodup_dictKeys_mapDetail dd)]
    rw [hasField] at hk
    cases he : getEntry (mapDetail dd) k with
    | none => rw [he] at hk; simp at hk
    | some v => simp [Option.orElse]
  · induction dd2 generalizing acc with
    | nil => simp
    | cons kv rest ih =>
      rw [List.foldl_cons]
      have hstep := mapDetailStep_preserves_truthy_grantDate acc kv hg
      rw [ih _ (by rw [hstep]; exact hg), hstep]

theorem C5_witness :
    hasField (mapDetail [("Final Grant Date", "11 Feb 2026")]) "grantDate" = true ∧
    pyTruthy (getStr [("grantDate", some "2025-01-01")] "grantDate") = true ∧
    (getEntry
        (pyUpdate [("grantDate", some "2025-01-01")]
          (mapDetail [("Final Grant Date", "11 Feb 2026")])) "grantDate" =
      getEntry (mapDetail [("Final Grant Date", "11 Feb 2026")]) "grantDate" ∧
    getStr
        ([("Final Grant Time", "2 Mar 2026")].foldl mapDetailStep
          [("grantDate", some "2025-01-01")]) "grantDate" =
      getStr [("grantDate", some "2025-01-01")] "grantDate") :=
  ⟨by decide, by decide,
    C5_detail_overwrites_search_fields
      [("grantDate", some "2025-01-01")] [("Final Grant Date", "11 Feb 2026")]
      "grantDate" (by decide) [("Final Grant Time", "2 Mar 2026")]
      [("grantDate", some "2025-01-01")] (by decide)⟩

/-- C5 counterexample: the claim AS STATED is false — a search-result record
with a non-empty grant date (`finalGrantDate` → "2025-01-01") is NOT
preserved: the detail page's "Final Grant Date" value overwrites it in
`scrape_application`'s merge. -/
theorem C5_counterexample :
    getStr ((agile_scrape "https://planning.agileapplications.ie/corkcoco"
        "25/6796"
        (some [("reference", some "25/6796"), ("id", some "77"),
          ("status", some "new application"),
          ("finalGrantDate", some "2025-01-01T00:00:00")])
        [("Final Grant Date", "11 Feb 2026")]).getD []) "grantDate" =
      some "2026-02-11" ∧
    parse_date (some "2025-01-01T00:00:00") = some "2025-01-01" ∧
    pyTruthy (some "2025-01-01") = true ∧
    (some "2026-02-11" : Option String) ≠ some "2025-01-01" := by decide

/-- C6: in the server-rendered adapter, a "Further Info Requested:" row whose
value parses to a non-empty date overrides a previously computed
"New Application" status to "Further Information Requested"; end-to-end, a
page for reference "2561339" with mapped status "New Application" and a
populated "Further Info Requested:" field yields that overridden status. -/
theorem C6_fi_requested_overrides_new_application :
    (∀ (acc : PyDict) (value : String),
      getStr acc "status" = some "New Application" →
      pyTruthy (parse_date (some value)) = true →
      getStr (eplanRowStep acc ("Further Info Requested:", value)) "status" =
        some "Further Information Requested") ∧
    eplanning_scrape
        "<html><head><title>Planning Application Details</title></head></html>"
        (some (some "Planning Application Details"))
        [("File Number:", "2561339"), ("Planning Status:", "NEW APPLICATION"),
          ("Further Info Requested:", "16/01/2026")]
        "2561339" =
      some [("ref", some "2561339"),
        ("status", some "Further Information Requested"),
        ("raw_status", some "NEW APPLICATION"),
        ("fi_requested", some "2026-01-16")] := by
  constructor
  · intro acc value h1 h2
    have hne1 : value ≠ "" := by
      intro he; rw [he] at h2; exact absurd h2 (by decide)
    have hne2 : value ≠ "-" := by
      intro he; rw [he] at h2; exact absurd h2 (by decide)
    simp +decide [eplanRowStep, hne1, hne2, getStr_dictSet, h1, h2]
  · decide

theorem C6_witness :
    getStr [("status", some "New Application")] "status" = some "New Application" ∧
    pyTruthy (parse_date (some "16/01/2026")) = true ∧
    getStr (eplanRowStep [("status", some "New Application")]
        ("Further Info Requested:", "16/01/2026")) "status" =
      some "Further Information Requested" :=
  ⟨by decide, by decide,
    C6_fi_requested_overrides_new_application.1
      [("status", some "New Application")] "16/01/2026" (by decide) (by decide)⟩

/-- C9: evaluation at the failing input.  A page with NO `<title>` element
whose raw content contains the explicit "no results found" marker is still
parsed into a populated record (the marker short-circuit never runs, because
line 404's condition parses as `(A or B) if soup.title else False`); the same
marker on a page WITH a title element does short-circuit to null. -/
theorem C9_marker_skipped_without_title :
    strContains
        (pyLower "<html><body>no results found<table><tr><td>Planning Status:</td><td>REFUSED</td></tr></table></body></html>")
        "no results found" = true ∧
    parse_detail_page
        "<html><body>no results found<table><tr><td>Planning Status:</td><td>REFUSED</td></tr></table></body></html>"
        none [("Planning Status:", "REFUSED")] "25/9" =
      Except.ok (some [("ref", some "25/9"), ("status", some "Decision Made"),
        ("raw_status", some "REFUSED")]) ∧
    parse_detail_page
        "<html><head><title>Search</title></head><body>no results found</body></html>"
        (some (some "Search")) [("Planning Status:", "REFUSED")] "25/9" =
      Except.ok none :=
  ⟨by decide, rfl, rfl⟩

theorem changedCond_eq_true (nw old : Option String) :
    changedCond nw old = true ↔ (pyTruthy nw = true ∧ nw ≠ old) := by
  unfold changedCond
  simp [bne_iff_ne]

theorem changedCond_self (v : Option String) : changedCond v v = false := by
  unfold changedCond
  simp

theorem mem_keys_chgStatus (app pd : PyDict) (k : String) :
    k ∈ (chgStatus app pd).map (fun e => e.1) ↔
      (changedCond (getStr pd "status") (getStrD app "status" "") = true ∧
        k = "status") := by
  unfold chgStatus
  cases h : changedCond (getStr pd "status") (getStrD app "status" "") <;> simp [h]

theorem mem_keys_chgField (app pd : PyDict) (f k : String) :
    k ∈ (chgField app pd f).map (fun e => e.1) ↔
      (changedCond (getStr pd f) (getStr app f) = true ∧ k = f) := by
  unfold chgField
  cases h : changedCond (getStr pd f) (getStr app f) <;> simp [h]

/-- C1: a field appears in `_changes` iff its new value is truthy (non-null,
non-empty) and differs from the prior value — the status compared against the
last-known status, the six other fields against the prior per-field values;
`_has_changes` is true iff `_changes` is non-empty; and when the scraped
status equals the last-known status and no other compared field differs, the
change set is empty (so `has-changes` is false). -/
theorem C1_changeset_iff_and_no_change
    (scrape : PortalConfig → Option String → Option PyDict)
    (registry : List (String × RegEntry)) (app pd : PyDict) :
    (("status" ∈ (computeChanges app pd).map (fun e => e.1)) ↔
      (pyTruthy (getStr pd "status") = true ∧
        getStr pd "status" ≠ getStrD app "status" "")) ∧
    (∀ f, f ∈ (["decDue", "decDate", "grantDate", "client", "decisionOutcome",
        "subDue"] : List String) →
      ((f ∈ (computeChanges app pd).map (fun e => e.1)) ↔
        (pyTruthy (getStr pd f) = true ∧ getStr pd f ≠ getStr app f))) ∧
    (∀ ch, (checkOne scrape registry app).changes = some ch →
      ((checkOne scrape registry app).hasChanges = some true ↔ ch ≠ [])) ∧
    (getStr pd "status" = getStrD app "status" "" →
      (∀ f ∈ (["decDue", "decDate", "grantDate", "client", "decisionOutcome",
          "subDue"] : List String), getStr pd f = getStr app f) →
      computeChanges app pd = []) := by
  refine ⟨?_, ?_, ?_, ?_⟩
  · rw [computeChanges]
    simp only [List.map_append, List.mem_append, mem_keys_chgStatus,
      mem_keys_chgField]
    simp [changedCond_eq_true]
  · intro f hf
    fin_cases hf <;>
      (rw [computeChanges]
       simp only [List.map_append, List.mem_append, mem_keys_chgStatus,
         mem_keys_chgField]
       simp [changedCond_eq_true])
  · intro ch hch
    simp only [checkOne] at hch ⊢
    cases hca : check_application scrape registry (getStrD app "auth" "")
        (getStrD app "ref" "") with
    | none =>
      rw [hca] at hch
      simp at hch
    | some pd1 =>
      rw [hca] at hch
      have hch2 : some (computeChanges app pd1) = some ch := hch
      have hch3 := Option.some.inj hch2
      subst hch3
      show some (decide (0 < (computeChanges app pd1).length)) = some true ↔
        computeChanges app pd1 ≠ []
      simp [List.length_pos]
  · intro h1 h2
    unfold computeChanges chgStatus chgField
    rw [h1, h2 "decDue" (by decide), h2 "decDate" (by decide),
      h2 "grantDate" (by decide), h2 "client" (by decide),
      h2 "decisionOutcome" (by decide), h2 "subDue" (by decide)]
    simp [changedCond_self]

theorem C1_witness :
    ((checkOne (fun _ _ => some [("status", some "Decision Made")])
        [("A", ⟨some ⟨"agile", "B"⟩, none⟩)]
        [("auth", some "A"), ("ref", some "1"),
          ("status", some "New Application")]).hasChanges = some true ↔
      ([("status", some "New Application", some "Decision Made")] : ChangeDict) ≠
        []) ∧
    computeChanges [("status", some "S")] [("status", some "S")] = [] :=
  ⟨(C1_changeset_iff_and_no_change
      (fun _ _ => some [("status", some "Decision Made")])
      [("A", ⟨some ⟨"agile", "B"⟩, none⟩)]
      [("auth", some "A"), ("ref", some "1"),
        ("status", some "New Application")] []).2.2.1
      [("status", some "New Application", some "Decision Made")] (by decide),
    (C1_changeset_iff_and_no_change
      (fun _ _ => some [("status", some "Decision Made")])
      [("A", ⟨some ⟨"agile", "B"⟩, none⟩)]
      [("status", some "S")] [("status", some "S")]).2.2.2 (by decide)
      (by decide)⟩

/-- C2: `check_application` returns the primary's record tagged with the
primary's endpoint and kind whenever the primary succeeds (first non-null wins,
no merging); the fallback's record tagged with the fallback's endpoint when
the primary fails and a fallback exists; null when both fail or the authority
is unknown — and `check_all` then emits a `failed` outcome with no change set
and no portal data.  The two adapters never return an empty (falsy) dict, so
the orchestrator's `if result:` truthiness test coincides with non-null. -/
theorem C2_primary_first_fallback_failure
    (scrape : PortalConfig → Option String → Option PyDict)
    (registry : List (String × RegEntry)) (a : String) (ref : Option String)
    (e : RegEntry) (p f : PortalConfig) (r : PyDict) (app : PyDict) :
    ((registry.find? (fun kv => kv.1 == a)).map (·.2) = some e →
      e.primary = some p → scrape p ref = some r → r ≠ [] →
      check_application scrape registry (some a) ref = some (tagResult r p)) ∧
    ((registry.find? (fun kv => kv.1 == a)).map (·.2) = some e →
      e.primary = some p → scrape p ref = none →
      e.fallback = some f → scrape f ref = some r → r ≠ [] →
      check_application scrape registry (some a) ref = some (tagResult r f)) ∧
    ((registry.find? (fun kv => kv.1 == a)).map (·.2) = some e →
      e.primary = some p → scrape p ref = none → e.fallback = none →
      check_application scrape registry (some a) ref = none) ∧
    ((registry.find? (fun kv => kv.1 == a)).map (·.2) = some e →
      e.primary = some p → scrape p ref = none →
      e.fallback = some f → scrape f ref = none →
      check_application scrape registry (some a) ref = none) ∧
    ((registry.find? (fun kv => kv.1 == a)).map (·.2) = none →
      check_application scrape registry (some a) ref = none) ∧
    (check_application scrape registry (getStrD app "auth" "")
        (getStrD app "ref" "") = none →
      (checkOne scrape registry app).scrapeStatus = "failed" ∧
      (checkOne scrape registry app).changes = none ∧
      (checkOne scrape registry app).portalData = none) ∧
    (∀ (b rf : String) (rd : Option PyDict) (dd : List (String × String)),
      agile_scrape b rf rd dd ≠ some []) ∧
    (∀ (h : String) (t : Option (Option String))
        (rows : List (String × String)) (rf : String),
      eplanning_scrape h t rows rf ≠ some []) := by
  refine ⟨?_, ?_, ?_, ?_, ?_, ?_, ?_, ?_⟩
  · intro he hp hs hr
    simp [check_application, he, hp, tryPortal, hs, hr]
  · intro he hp hs hf hfs hr
    simp [check_application, he, hp, hf, tryPortal, hs, hfs, hr]
  · intro he hp hs hf
    simp [check_application, he, hp, hf, tryPortal, hs]
  · intro he hp hs hf hfs
    simp [check_application, he, hp, hf, tryPortal, hs, hfs]
  · intro he
    simp [check_application, he]
  · intro hnone
    simp only [checkOne]
    rw [hnone]
    exact ⟨rfl, rfl, rfl⟩
  · intro b rf rd dd
    cases rd with
    | none => simp [agile_scrape]
    | some rdd =>
      simp only [agile_scrape]
      split_ifs <;> try simp
      intro hc
      exact pyUpdate_ne_nil _ _ (by simp) hc
  · intro h t rows rf
    have hbody : (if (rows.foldl eplanRowStep [("ref", some rf)]).length > 1
        then some (rows.foldl eplanRowStep [("ref", some rf)]) else none) ≠
        some ([] : PyDict) := by
      by_cases hl : (rows.foldl eplanRowStep [("ref", some rf)]).length > 1
      · rw [if_pos hl]
        intro hc
        rw [Option.some.injEq] at hc
        rw [hc] at hl
        simp at hl
      · rw [if_neg hl]
        simp
    cases t with
    | none => simpa [eplanning_scrape, parse_detail_page] using hbody
    | some ts =>
      by_cases hm : strContains (pyLower h) "no results found"
      · simp [eplanning_scrape, parse_detail_page, hm]
      · cases ts with
        | none => simp [eplanning_scrape, parse_detail_page, hm]
        | some tt =>
          by_cases he : strContains (pyLower tt) "error"
          · simp [eplanning_scrape, parse_detail_page, hm, he]
          · simpa [eplanning_scrape, parse_detail_page, hm, he] using hbody

theorem C2_witness :
    (check_application (fun pc _ => if pc.base_url == "B1"
        then some [("status", some "X")] else none)
      [("A", ⟨some ⟨"agile", "B1"⟩, some ⟨"eplanning", "B2"⟩⟩)]
      (some "A") (some "1") =
        some (tagResult [("status", some "X")] ⟨"agile", "B1"⟩)) ∧
    (check_application (fun pc _ => if pc.base_url == "B2"
        then some [("status", some "Y")] else none)
      [("A", ⟨some ⟨"agile", "B1"⟩, some ⟨"eplanning", "B2"⟩⟩)]
      (some "A") (some "1") =
        some (tagResult [("status", some "Y")] ⟨"eplanning", "B2"⟩)) ∧
    (check_application (fun _ _ => (none : Option PyDict))
      [("A", ⟨some ⟨"agile", "B1"⟩, none⟩)] (some "A") (some "1") = none) ∧
    (check_application (fun _ _ => (none : Option PyDict))
      [("A", ⟨some ⟨"agile", "B1"⟩, some ⟨"eplanning", "B2"⟩⟩)]
      (some "A") (some "1") = none) ∧
    (check_application (fun _ _ => (none : Option PyDict))
      [("A", ⟨some ⟨"agile", "B1"⟩, some ⟨"eplanning", "B2"⟩⟩)]
      (some "Z") (some "1") = none) ∧
    ((checkOne (fun _ _ => (none : Option PyDict))
        [("A", ⟨some ⟨"agile", "B1"⟩, some ⟨"eplanning", "B2"⟩⟩)]
        [("auth", some "A"), ("ref", some "1")]).scrapeStatus = "failed" ∧
      (checkOne (fun _ _ => (none : Option PyDict))
        [("A", ⟨some ⟨"agile", "B1"⟩, some ⟨"eplanning", "B2"⟩⟩)]
        [("auth", some "A"), ("ref", some "1")]).changes = none ∧
      (checkOne (fun _ _ => (none : Option PyDict))
        [("A", ⟨some ⟨"agile", "B1"⟩, some ⟨"eplanning", "B2"⟩⟩)]
        [("auth", some "A"), ("ref", some "1")]).portalData = none) ∧
    agile_scrape "b" "r" none [] ≠ some [] ∧
    eplanning_scrape "h" none [] "r" ≠ some [] :=
  ⟨(C2_primary_first_fallback_failure
      (fun pc _ => if pc.base_url == "B1" then some [("status", some "X")] else none)
      [("A", ⟨some ⟨"agile", "B1"⟩, some ⟨"eplanning", "B2"⟩⟩)] "A" (some "1")
      ⟨some ⟨"agile", "B1"⟩, some ⟨"eplanning", "B2"⟩⟩ ⟨"agile", "B1"⟩
      ⟨"eplanning", "B2"⟩ [("status", some "X")] []).1
      (by decide) rfl (by decide) (by decide),
    (C2_primary_first_fallback_failure
      (fun pc _ => if pc.base_url == "B2" then some [("status", some "Y")] else none)
      [("A", ⟨some ⟨"agile", "B1"⟩, some ⟨"eplanning", "B2"⟩⟩)] "A" (some "1")
      ⟨some ⟨"agile", "B1"⟩, some ⟨"eplanning", "B2"⟩⟩ ⟨"agile", "B1"⟩
      ⟨"eplanning", "B2"⟩ [("status", some "Y")] []).2.1
      (by decide) rfl (by decide) rfl (by decide) (by decide),
    (C2_primary_first_fallback_failure (fun _ _ => (none : Option PyDict))
      [("A", ⟨some ⟨"agile", "B1"⟩, none⟩)] "A" (some "1")
      ⟨some ⟨"agile", "B1"⟩, none⟩ ⟨"agile", "B1"⟩ ⟨"agile", "B1"⟩ [] []).2.2.1
      (by decide) rfl rfl rfl,
    (C2_primary_first_fallback_failure (fun _ _ => (none : Option PyDict))
      [("A", ⟨some ⟨"agile", "B1"⟩, some ⟨"eplanning", "B2"⟩⟩)] "A" (some "1")
      ⟨some ⟨"agile", "B1"⟩, some ⟨"eplanning", "B2"⟩⟩ ⟨"agile", "B1"⟩
      ⟨"eplanning", "B2"⟩ [] []).2.2.2.1
      (by decide) rfl rfl rfl rfl,
    (C2_primary_first_fallback_failure (fun _ _ => (none : Option PyDict))
      [("A", ⟨some ⟨"agile", "B1"⟩, some ⟨"eplanning", "B2"⟩⟩)] "Z" (some "1")
      ⟨some ⟨"agile", "B1"⟩, some ⟨"eplanning", "B2"⟩⟩ ⟨"agile", "B1"⟩
      ⟨"eplanning", "B2"⟩ [] []).2.2.2.2.1 (by decide),
    (C2_primary_first_fallback_failure (fun _ _ => (none : Option PyDict))
      [("A", ⟨some ⟨"agile", "B1"⟩, some ⟨"eplanning", "B2"⟩⟩)] "A" (some "1")
      ⟨some ⟨"agile", "B1"⟩, some ⟨"eplanning", "B2"⟩⟩ ⟨"agile", "B1"⟩
      ⟨"eplanning", "B2"⟩ [] [("auth", some "A"), ("ref", some "1")]).2.2.2.2.2.1
      (by decide),
    (C2_primary_first_fallback_failure (fun _ _ => (none : Option PyDict))
      [("A", ⟨some ⟨"agile", "B1"⟩, some ⟨"eplanning", "B2"⟩⟩)] "A" (some "1")
      ⟨some ⟨"agile", "B1"⟩, some ⟨"eplanning", "B2"⟩⟩ ⟨"agile", "B1"⟩
      ⟨"eplanning", "B2"⟩ [] []).2.2.2.2.2.2.1 "b" "r" none [],
    (C2_primary_first_fallback_failure (fun _ _ => (none : Option PyDict))
      [("A", ⟨some ⟨"agile", "B1"⟩, some ⟨"eplanning", "B2"⟩⟩)] "A" (some "1")
      ⟨some ⟨"agile", "B1"⟩, some ⟨"eplanning", "B2"⟩⟩ ⟨"agile", "B1"⟩
      ⟨"eplanning", "B2"⟩ [] []).2.2.2.2.2.2.2 "h" none [] "r"⟩
